import Mathlib

/-!
# Verification of the numchuck/pychuck render & callback bridge

Shallow embedding of `src/numchuck/api.py` (class `Chuck`) and the
corresponding parts of `src/pychuck/api.py`.  The external ChucK engine is
opaque: we record the primitive calls the bridge makes on it (`EngineCall`)
and model buffer identity with an allocation counter, mirroring Python
object identity for numpy arrays.
-/

namespace Numchuck

/-- A numpy float32 array, as the bridge sees it: an object identity
(allocation id, standing for the Python object) plus its contents.  Sample
values are abstracted as integers; the bridge itself only ever creates
all-zero buffers and never performs sample arithmetic. -/
structure Buffer where
  id : Nat
  data : List Int
deriving Repr, DecidableEq

/-- `np.zeros(n, dtype=np.float32)` contents. -/
def npZeros (n : Nat) : List Int := List.replicate n 0

/-- State of a `Chuck` instance that the render path touches:
the channel counts (fixed at initialization, read back from the engine
parameters which are read-only after `init`), the internal reusable
buffer pair `_reuse_output_buf` / `_reuse_input_buf`, the size tag
`_reuse_num_frames`, and a fresh-allocation counter giving new numpy
arrays their object identity. -/
structure ChuckState where
  inChannels : Nat
  outChannels : Nat
  reuseOutput : Option Buffer
  reuseInput : Option Buffer
  reuseNumFrames : Nat
  nextId : Nat
deriving Repr, DecidableEq

/-- State right after `Chuck.__init__`: both reuse buffers are `None`
(lazily allocated) and `_reuse_num_frames = 0`. -/
def ChuckState.fresh (inCh outCh : Nat) : ChuckState :=
  { inChannels := inCh, outChannels := outCh,
    reuseOutput := none, reuseInput := none,
    reuseNumFrames := 0, nextId := 0 }

/-- One call of the engine primitive `_numchuck.ChucK.run(input, output,
num_frames)` as issued by the bridge: which buffers were handed over and the
frame count. -/
structure EngineRunCall where
  input : Buffer
  output : Buffer
  numFrames : Nat
deriving Repr, DecidableEq

/-- What `Chuck.run` produces: the returned buffer, the single engine run
primitive call it issued, and the updated bridge state. -/
structure RunResult where
  ret : Buffer
  call : EngineRunCall
  state : ChuckState
deriving Repr, DecidableEq

/-- Output-buffer selection of `Chuck.run` (api.py lines 214-229):
caller buffer if supplied; else under `reuse` reallocate both internal
buffers when `_reuse_num_frames != num_frames or _reuse_output_buf is None`
and record the tag, otherwise hand back the stored buffer; else a fresh
zero buffer for this call only. -/
def Chuck.selectOutput (s : ChuckState) (numFrames : Nat)
    (outputArg : Option Buffer) (reuse : Bool) : Buffer × ChuckState :=
  match outputArg with
  | some b => (b, s)
  | none =>
    if reuse then
      if s.reuseNumFrames != numFrames || s.reuseOutput.isNone then
        let ob : Buffer := ⟨s.nextId, npZeros (numFrames * s.outChannels)⟩
        let ib : Buffer := ⟨s.nextId + 1, npZeros (numFrames * s.inChannels)⟩
        (ob, { s with reuseOutput := some ob, reuseInput := some ib,
                      reuseNumFrames := numFrames, nextId := s.nextId + 2 })
      else
        (s.reuseOutput.getD ⟨0, []⟩, s)
    else
      (⟨s.nextId, npZeros (numFrames * s.outChannels)⟩,
       { s with nextId := s.nextId + 1 })

/-- Input-buffer selection of `Chuck.run` (api.py lines 231-237), applied to
the state as updated by output selection: caller buffer if supplied; else the
stored reuse input buffer whenever `reuse and self._reuse_input_buf is not
None`; else a fresh zero buffer of `num_frames * input_channels`. -/
def Chuck.selectInput (s : ChuckState) (numFrames : Nat)
    (inputArg : Option Buffer) (reuse : Bool) : Buffer × ChuckState :=
  match inputArg with
  | some b => (b, s)
  | none =>
    if reuse && s.reuseInput.isSome then
      (s.reuseInput.getD ⟨0, []⟩, s)
    else
      (⟨s.nextId, npZeros (numFrames * s.inChannels)⟩,
       { s with nextId := s.nextId + 1 })

/-- `Chuck.run(num_frames, *, output=None, input=None, reuse=False)`
(api.py lines 178-240): select the output buffer, then the input buffer,
call `self._chuck.run(input_buf, output_buf, num_frames)` and return
`output_buf`. -/
def Chuck.run (s : ChuckState) (numFrames : Nat)
    (outputArg inputArg : Option Buffer) (reuse : Bool) : RunResult :=
  let o := Chuck.selectOutput s numFrames outputArg reuse
  let i := Chuck.selectInput o.2 numFrames inputArg reuse
  ⟨o.1, ⟨i.1, o.1, numFrames⟩, i.2⟩

/-- `Chuck.advance(num_frames)` (api.py lines 242-259): allocate fresh zero
input and output buffers of the default sizes, call the engine run
primitive, return `None` (no buffer). -/
def Chuck.advance (s : ChuckState) (numFrames : Nat) :
    Option Buffer × EngineRunCall × ChuckState :=
  let ib : Buffer := ⟨s.nextId, npZeros (numFrames * s.inChannels)⟩
  let ob : Buffer := ⟨s.nextId + 1, npZeros (numFrames * s.outChannels)⟩
  (none, ⟨ib, ob, numFrames⟩, { s with nextId := s.nextId + 2 })

/-- Engine configuration parameter keys (`_numchuck.PARAM_*`). -/
inductive ParamKey where
  | sampleRate | inputChannels | outputChannels | workingDirectory
  | chuginEnable | userChugins | vmAdaptive | vmHalt | autoDepend
  | deprecateLevel | dumpInstructions | otfEnable | otfPort
  | ttyColor | ttyWidthHint
deriving Repr, DecidableEq

/-- Primitive calls the bridge issues on the opaque engine handle
(`self._chuck.*`), plus `invokePyCallback`, the event of a registered
Python callback being invoked — something only the engine does while
processing a block inside its run primitive, never the bridge itself. -/
inductive EngineCall where
  | runPrimitive (input output : Buffer) (numFrames : Nat)
  | setParam (key : ParamKey) (value : Int)
  | setParamString (key : ParamKey) (value : String)
  | setParamStringList (key : ParamKey) (value : List String)
  | initEngine
  | compileCode (code args : String) (count : Nat) (immediate : Bool)
  | getGlobalInt (name : String)
  | getGlobalFloat (name : String)
  | getGlobalString (name : String)
  | setGlobalInt (name : String) (value : Int)
  | setGlobalFloat (name : String)
  | setGlobalString (name : String) (value : String)
  | signalGlobalEvent (name : String)
  | broadcastGlobalEvent (name : String)
  | listenForGlobalEvent (name : String) (listenForever : Bool)
  | stopListeningForGlobalEvent (name : String) (callbackId : Nat)
  | removeShredCall (shredId : Nat)
  | replaceShredCall (shredId : Nat) (code args : String)
  | clearVmCall
  | resetShredIdCall
  | invokePyCallback
deriving Repr, DecidableEq

/-- Whether a primitive call is the engine run primitive (the only
primitive that advances engine virtual time). -/
def EngineCall.isRunPrimitive : EngineCall → Bool
  | .runPrimitive _ _ _ => true
  | _ => false

/-- Whether a primitive call is the engine invoking a registered Python
callback. -/
def EngineCall.isCallbackInvocation : EngineCall → Bool
  | .invokePyCallback => true
  | _ => false

/-- Whether a primitive call is a string-valued `set_param_string`. -/
def EngineCall.isSetParamStr : EngineCall → Bool
  | .setParamString _ _ => true
  | _ => false

/-- Whether a primitive call is a `set_param_string_list`. -/
def EngineCall.isSetParamStrList : EngineCall → Bool
  | .setParamStringList _ _ => true
  | _ => false

/-- Whether a primitive call is the engine `init()`. -/
def EngineCall.isInitCall : EngineCall → Bool
  | .initEngine => true
  | _ => false

/-- Timeout message of numchuck `Chuck.get_int` (api.py lines 436-439);
the quote characters around the variable name are elided. -/
def getIntTimeoutMsg (name : String) (runFrames : Nat) : String :=
  "Failed to get global int " ++ name ++
    " - callback not invoked. Try increasing run_frames (currently " ++
    toString runFrames ++ ")."

/-- Timeout message of numchuck `Chuck.get_float` (api.py lines 460-463). -/
def getFloatTimeoutMsg (name : String) (runFrames : Nat) : String :=
  "Failed to get global float " ++ name ++
    " - callback not invoked. Try increasing run_frames (currently " ++
    toString runFrames ++ ")."

/-- Timeout message of numchuck `Chuck.get_string` (api.py lines 484-487). -/
def getStringTimeoutMsg (name : String) (runFrames : Nat) : String :=
  "Failed to get global string " ++ name ++
    " - callback not invoked. Try increasing run_frames (currently " ++
    toString runFrames ++ ")."

/-- `needle` occurs as a contiguous substring of `hay`. -/
def containsStr (hay needle : String) : Prop :=
  needle.data <:+: hay.data

instance (hay needle : String) : Decidable (containsStr hay needle) :=
  inferInstanceAs (Decidable (needle.data <:+: hay.data))

/-- numchuck `Chuck.get_int(name, run_frames)` (api.py lines 422-440):
register a one-shot callback appending to `result`, drive
`self.run(run_frames)` once, then return the delivered value or raise.
`delivered` is the value the engine's one-shot callback appended during
that single run, if it fired. -/
def Chuck.getInt (s : ChuckState) (name : String) (runFrames : Nat)
    (delivered : Option Int) : Except String Int × List EngineCall × ChuckState :=
  let r := Chuck.run s runFrames none none false
  (match delivered with
   | some v => .ok v
   | none => .error (getIntTimeoutMsg name runFrames),
   [.getGlobalInt name,
    .runPrimitive r.call.input r.call.output r.call.numFrames],
   r.state)

/-- numchuck `Chuck.get_float` (api.py lines 446-464), same shape as
`get_int`; the delivered float payload is abstracted as an integer since
the bridge only forwards it. -/
def Chuck.getFloat (s : ChuckState) (name : String) (runFrames : Nat)
    (delivered : Option Int) : Except String Int × List EngineCall × ChuckState :=
  let r := Chuck.run s runFrames none none false
  (match delivered with
   | some v => .ok v
   | none => .error (getFloatTimeoutMsg name runFrames),
   [.getGlobalFloat name,
    .runPrimitive r.call.input r.call.output r.call.numFrames],
   r.state)

/-- numchuck `Chuck.get_string` (api.py lines 470-488), same shape as
`get_int`. -/
def Chuck.getString (s : ChuckState) (name : String) (runFrames : Nat)
    (delivered : Option String) :
    Except String String × List EngineCall × ChuckState :=
  let r := Chuck.run s runFrames none none false
  (match delivered with
   | some v => .ok v
   | none => .error (getStringTimeoutMsg name runFrames),
   [.getGlobalString name,
    .runPrimitive r.call.input r.call.output r.call.numFrames],
   r.state)

/-- State of a `pychuck.api.Chuck` instance: channel counts and the
allocation counter; pychuck has no reusable-buffer machinery. -/
structure PychuckState where
  inChannels : Nat
  outChannels : Nat
  nextId : Nat
deriving Repr, DecidableEq

/-- What `pychuck` `Chuck.run` produces. -/
structure PyRunResult where
  ret : Buffer
  call : EngineRunCall
  state : PychuckState
deriving Repr, DecidableEq

/-- pychuck `Chuck.run(num_frames)` (pychuck/api.py): allocate fresh zero
input and output buffers, call the engine run primitive, return the
output buffer. -/
def Pychuck.run (s : PychuckState) (numFrames : Nat) : PyRunResult :=
  let ib : Buffer := ⟨s.nextId, npZeros (numFrames * s.inChannels)⟩
  let ob : Buffer := ⟨s.nextId + 1, npZeros (numFrames * s.outChannels)⟩
  ⟨ob, ⟨ib, ob, numFrames⟩, { s with nextId := s.nextId + 2 }⟩

/-- Timeout message of pychuck `Chuck.get_int` (pychuck/api.py lines
330-345); the quote characters around the variable name are elided.  Note
it does not mention the frame budget. -/
def pychuckGetIntTimeoutMsg (name : String) : String :=
  "Failed to get global int " ++ name

/-- pychuck `Chuck.get_int(name, run_frames)` (pychuck/api.py lines
330-345): same protocol as the numchuck getter, but the timeout message
names only the variable. -/
def Pychuck.getInt (s : PychuckState) (name : String) (runFrames : Nat)
    (delivered : Option Int) :
    Except String Int × List EngineCall × PychuckState :=
  let r := Pychuck.run s runFrames
  (match delivered with
   | some v => .ok v
   | none => .error (pychuckGetIntTimeoutMsg name),
   [.getGlobalInt name,
    .runPrimitive r.call.input r.call.output r.call.numFrames],
   r.state)

/-- Modelled from the spec: the compiled binding layer
(`_numchuck.ChucK.run`, whose C++ source is not under `src/`) validates
the supplied buffer lengths against `num_frames` times the configured
channel counts before crossing into the engine, failing with an
InvalidArgument condition on mismatch (spec sections 4.3 and 7). -/
inductive BindingOutcome where
  | invalidArgument
  | engineRan (numFrames : Nat)
deriving Repr, DecidableEq

/-- Modelled from the spec: the defensive length check performed by the
binding's run primitive before the engine core is entered. -/
def bindingRun (inCh outCh : Nat) (c : EngineRunCall) : BindingOutcome :=
  if c.input.data.length != c.numFrames * inCh ||
     c.output.data.length != c.numFrames * outCh then
    .invalidArgument
  else
    .engineRan c.numFrames

/-- A `Chuck.run` call followed through the binding layer's defensive
length check. -/
def Chuck.runChecked (s : ChuckState) (numFrames : Nat)
    (outputArg inputArg : Option Buffer) (reuse : Bool) : BindingOutcome :=
  bindingRun s.inChannels s.outChannels
    (Chuck.run s numFrames outputArg inputArg reuse).call

/-- `int(b)` applied to a Python bool. -/
def pyBool (b : Bool) : Int := if b then 1 else 0

/-- The keyword arguments of `Chuck.__init__` (api.py lines 70-88).
`userChugins = []` covers both `None` and the empty list, which Python
truthiness treats alike. -/
structure CtorArgs where
  sampleRate : Int
  inputChannels : Int
  outputChannels : Int
  workingDirectory : String
  chuginEnable : Bool
  userChugins : List String
  vmAdaptive : Bool
  vmHalt : Bool
  autoDepend : Bool
  deprecateLevel : Int
  dumpInstructions : Bool
  otfEnable : Bool
  otfPort : Int
  ttyColor : Bool
  ttyWidthHint : Int
  autoInit : Bool
deriving Repr, DecidableEq

/-- The sequence of engine primitive calls issued by `Chuck.__init__`
(api.py lines 89-115), in source order: thirteen unconditional
`set_param` calls, `working_directory` and `user_chugins` staged only
when truthy, and `init()` when `auto_init`. -/
def ctorCalls (a : CtorArgs) : List EngineCall :=
  [.setParam .sampleRate a.sampleRate,
   .setParam .inputChannels a.inputChannels,
   .setParam .outputChannels a.outputChannels] ++
  (if a.workingDirectory.isEmpty then [] else
    [.setParamString .workingDirectory a.workingDirectory]) ++
  [.setParam .chuginEnable (pyBool a.chuginEnable)] ++
  (if a.userChugins.isEmpty then [] else
    [.setParamStringList .userChugins a.userChugins]) ++
  [.setParam .vmAdaptive (pyBool a.vmAdaptive),
   .setParam .vmHalt (pyBool a.vmHalt),
   .setParam .autoDepend (pyBool a.autoDepend),
   .setParam .deprecateLevel a.deprecateLevel,
   .setParam .dumpInstructions (pyBool a.dumpInstructions),
   .setParam .otfEnable (pyBool a.otfEnable),
   .setParam .otfPort a.otfPort,
   .setParam .ttyColor (pyBool a.ttyColor),
   .setParam .ttyWidthHint a.ttyWidthHint] ++
  (if a.autoInit then [.initEngine] else [])

/-- The key of an integer-valued `set_param` call, if it is one. -/
def EngineCall.intParamKey : EngineCall → Option ParamKey
  | .setParam k _ => some k
  | _ => none

/-- The thirteen parameter keys `Chuck.__init__` stages unconditionally,
in source order. -/
def unconditionalKeys : List ParamKey :=
  [.sampleRate, .inputChannels, .outputChannels, .chuginEnable,
   .vmAdaptive, .vmHalt, .autoDepend, .deprecateLevel,
   .dumpInstructions, .otfEnable, .otfPort, .ttyColor, .ttyWidthHint]

/-- The public operations of the numchuck `Chuck` class that touch the
engine handle, with their arguments.  For the blocking getters,
`delivered` (whether the engine's callback fired during the internal run)
does not affect the state or the calls issued, so it is omitted here. -/
inductive ApiOp where
  | runOp (numFrames : Nat) (outputArg inputArg : Option Buffer) (reuse : Bool)
  | advanceOp (numFrames : Nat)
  | getIntOp (name : String) (runFrames : Nat)
  | getFloatOp (name : String) (runFrames : Nat)
  | getStringOp (name : String) (runFrames : Nat)
  | setIntOp (name : String) (value : Int)
  | setFloatOp (name : String)
  | setStringOp (name : String) (value : String)
  | getIntAsyncOp (name : String)
  | getFloatAsyncOp (name : String)
  | getStringAsyncOp (name : String)
  | signalEventOp (name : String)
  | broadcastEventOp (name : String)
  | onEventOp (name : String) (listenForever : Bool)
  | stopListeningOp (name : String) (callbackId : Nat)
  | compileOp (code args : String) (count : Nat) (immediate : Bool)
  | removeShredOp (shredId : Nat)
  | replaceShredOp (shredId : Nat) (code args : String)
  | clearOp
  | resetIdOp
deriving Repr, DecidableEq

/-- The engine primitive calls each bridge operation issues and the
resulting bridge state, read off the body of each method in api.py. -/
def ApiOp.step (s : ChuckState) : ApiOp → List EngineCall × ChuckState
  | runOp n o i r =>
    let res := Chuck.run s n o i r
    ([.runPrimitive res.call.input res.call.output res.call.numFrames],
     res.state)
  | advanceOp n =>
    let res := Chuck.advance s n
    ([.runPrimitive res.2.1.input res.2.1.output res.2.1.numFrames],
     res.2.2)
  | getIntOp name rf => ((Chuck.getInt s name rf none).2.1,
      (Chuck.getInt s name rf none).2.2)
  | getFloatOp name rf => ((Chuck.getFloat s name rf none).2.1,
      (Chuck.getFloat s name rf none).2.2)
  | getStringOp name rf => ((Chuck.getString s name rf none).2.1,
      (Chuck.getString s name rf none).2.2)
  | setIntOp name v => ([.setGlobalInt name v], s)
  | setFloatOp name => ([.setGlobalFloat name], s)
  | setStringOp name v => ([.setGlobalString name v], s)
  | getIntAsyncOp name => ([.getGlobalInt name], s)
  | getFloatAsyncOp name => ([.getGlobalFloat name], s)
  | getStringAsyncOp name => ([.getGlobalString name], s)
  | signalEventOp name => ([.signalGlobalEvent name], s)
  | broadcastEventOp name => ([.broadcastGlobalEvent name], s)
  | onEventOp name forever => ([.listenForGlobalEvent name forever], s)
  | stopListeningOp name cid => ([.stopListeningForGlobalEvent name cid], s)
  | compileOp code args count imm => ([.compileCode code args count imm], s)
  | removeShredOp sid => ([.removeShredCall sid], s)
  | replaceShredOp sid code args => ([.replaceShredCall sid code args], s)
  | clearOp => ([.clearVmCall], s)
  | resetIdOp => ([.resetShredIdCall], s)

/-- Operations whose source body invokes `Chuck.run` or `Chuck.advance`
(the render loop): `run`, `advance`, and the blocking scalar getters,
which drive frames by calling `self.run(run_frames)`. -/
def ApiOp.drivesFrames : ApiOp → Bool
  | .runOp _ _ _ _ => true
  | .advanceOp _ => true
  | .getIntOp _ _ => true
  | .getFloatOp _ _ => true
  | .getStringOp _ _ => true
  | _ => false

/-- The buffer-pair invariant of a bridge state: the reusable output and
input buffers are either both unallocated with the stored frame tag `0`,
or both allocated with lengths `_reuse_num_frames` times the respective
channel counts. -/
def ChuckState.Inv (s : ChuckState) : Prop :=
  (s.reuseOutput = none ∧ s.reuseInput = none ∧ s.reuseNumFrames = 0) ∨
  (∃ ob ib, s.reuseOutput = some ob ∧ s.reuseInput = some ib ∧
    ob.data.length = s.reuseNumFrames * s.outChannels ∧
    ib.data.length = s.reuseNumFrames * s.inChannels)

/-- The cached size tag of the reusable buffer pair: the recorded frame
count together with the channel counts the buffers were sized with (the
channel counts of the instance, fixed at initialization). -/
def ChuckState.reuseTag (s : ChuckState) : Nat × Nat × Nat :=
  (s.reuseNumFrames, s.outChannels, s.inChannels)

/-- The size tag of a `run` request for `n` frames on state `s`: the
requested frame count and the channel counts it will be sized with. -/
def requestTag (s : ChuckState) (n : Nat) : Nat × Nat × Nat :=
  (n, s.outChannels, s.inChannels)

/-- Well-formedness of a bridge state: every buffer stored in the reuse
slots was allocated by this instance, so its object identity precedes the
allocation counter.  Holds for `ChuckState.fresh` and is preserved by all
operations. -/
def ChuckState.WF (s : ChuckState) : Prop :=
  (∀ b, s.reuseOutput = some b → b.id < s.nextId) ∧
  (∀ b, s.reuseInput = some b → b.id < s.nextId)

/-- The buffer pair freshly allocated by the reuse branch of `Chuck.run`
at state `s` for `n` frames (output buffer first, as in the source). -/
def Chuck.reallocOutput (s : ChuckState) (n : Nat) : Buffer :=
  ⟨s.nextId, npZeros (n * s.outChannels)⟩

/-- Companion input buffer allocated by the reuse branch of `Chuck.run`. -/
def Chuck.reallocInput (s : ChuckState) (n : Nat) : Buffer :=
  ⟨s.nextId + 1, npZeros (n * s.inChannels)⟩

theorem run_reuse_hit (s : ChuckState) (n : Nat) (ob ib : Buffer)
    (ho : s.reuseOutput = some ob) (hi : s.reuseInput = some ib)
    (h : s.reuseNumFrames = n) :
    Chuck.run s n none none true = ⟨ob, ⟨ib, ob, n⟩, s⟩ := by
  simp [Chuck.run, Chuck.selectOutput, Chuck.selectInput, ho, hi, h]

theorem run_reuse_hit_noinput (s : ChuckState) (n : Nat) (ob : Buffer)
    (ho : s.reuseOutput = some ob) (hi : s.reuseInput = none)
    (h : s.reuseNumFrames = n) :
    Chuck.run s n none none true =
      ⟨ob, ⟨⟨s.nextId, npZeros (n * s.inChannels)⟩, ob, n⟩,
       { s with nextId := s.nextId + 1 }⟩ := by
  simp [Chuck.run, Chuck.selectOutput, Chuck.selectInput, ho, hi, h]

theorem run_reuse_miss (s : ChuckState) (n : Nat)
    (h : s.reuseNumFrames ≠ n ∨ s.reuseOutput = none) :
    Chuck.run s n none none true =
      ⟨Chuck.reallocOutput s n,
       ⟨Chuck.reallocInput s n, Chuck.reallocOutput s n, n⟩,
       { s with reuseOutput := some (Chuck.reallocOutput s n),
                reuseInput := some (Chuck.reallocInput s n),
                reuseNumFrames := n, nextId := s.nextId + 2 }⟩ := by
  have hcond : (s.reuseNumFrames != n || s.reuseOutput.isNone) = true := by
    rcases h with h | h
    · simp [h]
    · simp [h]
  simp [Chuck.run, Chuck.selectOutput, Chuck.selectInput, hcond,
        Chuck.reallocOutput, Chuck.reallocInput]

theorem run_default_eq (s : ChuckState) (n : Nat) :
    Chuck.run s n none none false =
      ⟨⟨s.nextId, npZeros (n * s.outChannels)⟩,
       ⟨⟨s.nextId + 1, npZeros (n * s.inChannels)⟩,
        ⟨s.nextId, npZeros (n * s.outChannels)⟩, n⟩,
       { s with nextId := s.nextId + 2 }⟩ := by
  simp [Chuck.run, Chuck.selectOutput, Chuck.selectInput]

theorem selectInput_state (s : ChuckState) (n : Nat)
    (inputArg : Option Buffer) (reuse : Bool) :
    (Chuck.selectInput s n inputArg reuse).2 = s ∨
    (Chuck.selectInput s n inputArg reuse).2 =
      { s with nextId := s.nextId + 1 } := by
  cases inputArg with
  | some b => exact Or.inl rfl
  | none =>
    simp only [Chuck.selectInput]
    split
    · exact Or.inl rfl
    · exact Or.inr rfl

theorem selectOutput_cases (s : ChuckState) (n : Nat)
    (outputArg : Option Buffer) (reuse : Bool) :
    (∃ b, outputArg = some b ∧
      Chuck.selectOutput s n outputArg reuse = (b, s)) ∨
    (outputArg = none ∧
      Chuck.selectOutput s n outputArg reuse =
        (⟨s.nextId, npZeros (n * s.outChannels)⟩,
         { s with nextId := s.nextId + 1 })) ∨
    (outputArg = none ∧ ∃ ob, s.reuseOutput = some ob ∧
      s.reuseNumFrames = n ∧
      Chuck.selectOutput s n outputArg reuse = (ob, s)) ∨
    (outputArg = none ∧
      Chuck.selectOutput s n outputArg reuse =
        (Chuck.reallocOutput s n,
         { s with reuseOutput := some (Chuck.reallocOutput s n),
                  reuseInput := some (Chuck.reallocInput s n),
                  reuseNumFrames := n, nextId := s.nextId + 2 })) := by
  cases outputArg with
  | some b => exact Or.inl ⟨b, rfl, rfl⟩
  | none =>
    cases reuse with
    | false =>
      exact Or.inr (Or.inl ⟨rfl, rfl⟩)
    | true =>
      by_cases hc : (s.reuseNumFrames != n || s.reuseOutput.isNone) = true
      · refine Or.inr (Or.inr (Or.inr ⟨rfl, ?_⟩))
        simp only [Chuck.selectOutput, hc]
        rfl
      · have hc' := hc
        simp only [Bool.or_eq_true, bne_iff_ne, ne_eq, not_or,
          Option.isNone_iff_eq_none, Decidable.not_not] at hc'
        obtain ⟨hfr, hso⟩ := hc'
        obtain ⟨ob, hob⟩ := Option.ne_none_iff_exists'.mp hso
        refine Or.inr (Or.inr (Or.inl ⟨rfl, ob, hob, hfr, ?_⟩))
        simp only [Chuck.selectOutput, Bool.not_eq_true] at hc ⊢
        rw [hc]
        simp [hob]

/-- C4: `run(num_frames, output=buf)` with a caller-supplied output buffer
returns that same object by identity, hands it (not a copy) to the engine
run primitive, allocates no output buffer, and leaves the internal
reusable buffer pair and its size tag untouched; when the input buffer is
also caller-supplied the bridge state is completely unchanged. -/
theorem Chuck.run_caller_output_identity (s : ChuckState) (n : Nat)
    (b : Buffer) (inputArg : Option Buffer) (reuse : Bool) :
    (Chuck.run s n (some b) inputArg reuse).ret = b ∧
    (Chuck.run s n (some b) inputArg reuse).call.output = b ∧
    (Chuck.run s n (some b) inputArg reuse).state.reuseOutput =
      s.reuseOutput ∧
    (Chuck.run s n (some b) inputArg reuse).state.reuseInput =
      s.reuseInput ∧
    (Chuck.run s n (some b) inputArg reuse).state.reuseNumFrames =
      s.reuseNumFrames ∧
    (∀ ibuf, inputArg = some ibuf →
      (Chuck.run s n (some b) inputArg reuse).state = s) := by
  have hst := selectInput_state s n inputArg reuse
  have hrun : Chuck.run s n (some b) inputArg reuse =
      ⟨b, ⟨(Chuck.selectInput s n inputArg reuse).1, b, n⟩,
       (Chuck.selectInput s n inputArg reuse).2⟩ := rfl
  rw [hrun]
  rcases hst with h | h <;> rw [h]
  · exact ⟨rfl, rfl, rfl, rfl, rfl, fun _ _ => rfl⟩
  · refine ⟨rfl, rfl, rfl, rfl, rfl, fun ibuf hib => ?_⟩
    subst hib
    have h' : s = { s with nextId := s.nextId + 1 } := by
      simpa [Chuck.selectInput] using h
    have hid := congrArg ChuckState.nextId h'
    simp at hid

theorem Chuck.run_caller_output_identity_witness :
    (Chuck.run (ChuckState.fresh 2 2) 4 (some ⟨0, npZeros 8⟩)
        (some ⟨1, npZeros 8⟩) false).ret = ⟨0, npZeros 8⟩ ∧
    (Chuck.run (ChuckState.fresh 2 2) 4 (some ⟨0, npZeros 8⟩)
        (some ⟨1, npZeros 8⟩) false).state = ChuckState.fresh 2 2 := by
  have h := Chuck.run_caller_output_identity (ChuckState.fresh 2 2) 4
    ⟨0, npZeros 8⟩ (some ⟨1, npZeros 8⟩) false
  exact ⟨h.1, h.2.2.2.2.2 ⟨1, npZeros 8⟩ rfl⟩

/-- C1: with the internal reusable pair allocated, `run(n, reuse=true)`
with no caller buffers reuses the pair unchanged — returning the stored
output buffer with zero allocation and an unchanged state — exactly when
the cached (frame_count, channel_count) tag matches the request; on any
mismatch both buffers are reallocated to the new sizes, the new tag is
recorded, and the old buffers are dropped (the new objects are distinct
from the old ones). -/
theorem Chuck.run_reuse_pair_iff_tag (s : ChuckState) (n : Nat)
    (ob ib : Buffer) (hWF : s.WF)
    (ho : s.reuseOutput = some ob) (hi : s.reuseInput = some ib) :
    (s.reuseTag = requestTag s n →
      Chuck.run s n none none true = ⟨ob, ⟨ib, ob, n⟩, s⟩) ∧
    (s.reuseTag ≠ requestTag s n →
      ∃ ob' ib',
        (Chuck.run s n none none true).state.reuseOutput = some ob' ∧
        (Chuck.run s n none none true).state.reuseInput = some ib' ∧
        ob'.data.length = n * s.outChannels ∧
        ib'.data.length = n * s.inChannels ∧
        (Chuck.run s n none none true).state.reuseTag = requestTag s n ∧
        ob' ≠ ob ∧ ib' ≠ ib) := by
  constructor
  · intro h
    have hfr : s.reuseNumFrames = n := by
      have := congrArg Prod.fst h
      simpa [ChuckState.reuseTag, requestTag] using this
    exact run_reuse_hit s n ob ib ho hi hfr
  · intro h
    have hfr : s.reuseNumFrames ≠ n := by
      intro hf
      exact h (by simp [ChuckState.reuseTag, requestTag, hf])
    rw [run_reuse_miss s n (Or.inl hfr)]
    refine ⟨Chuck.reallocOutput s n, Chuck.reallocInput s n,
      rfl, rfl, ?_, ?_, ?_, ?_, ?_⟩
    · simp [Chuck.reallocOutput, npZeros]
    · simp [Chuck.reallocInput, npZeros]
    · simp [ChuckState.reuseTag, requestTag]
    · intro he
      have hlt := hWF.1 ob ho
      rw [← he] at hlt
      simp [Chuck.reallocOutput] at hlt
    · intro he
      have hlt := hWF.2 ib hi
      rw [← he] at hlt
      simp [Chuck.reallocInput] at hlt

theorem Chuck.run_reuse_pair_iff_tag_witness :
    (ChuckState.mk 1 1 (some ⟨0, npZeros 2⟩) (some ⟨1, npZeros 2⟩) 2 2).WF ∧
    (ChuckState.mk 1 1 (some ⟨0, npZeros 2⟩)
        (some ⟨1, npZeros 2⟩) 2 2).reuseTag =
      requestTag (ChuckState.mk 1 1 (some ⟨0, npZeros 2⟩)
        (some ⟨1, npZeros 2⟩) 2 2) 2 ∧
    Chuck.run (ChuckState.mk 1 1 (some ⟨0, npZeros 2⟩)
        (some ⟨1, npZeros 2⟩) 2 2) 2 none none true =
      ⟨⟨0, npZeros 2⟩, ⟨⟨1, npZeros 2⟩, ⟨0, npZeros 2⟩, 2⟩,
       ChuckState.mk 1 1 (some ⟨0, npZeros 2⟩) (some ⟨1, npZeros 2⟩) 2 2⟩ := by
  have hWF : (ChuckState.mk 1 1 (some ⟨0, npZeros 2⟩)
      (some ⟨1, npZeros 2⟩) 2 2).WF := by
    constructor
    · rintro b hb
      injection hb with h
      subst h
      decide
    · rintro b hb
      injection hb with h
      subst h
      decide
  have h := Chuck.run_reuse_pair_iff_tag
    (ChuckState.mk 1 1 (some ⟨0, npZeros 2⟩) (some ⟨1, npZeros 2⟩) 2 2) 2
    ⟨0, npZeros 2⟩ ⟨1, npZeros 2⟩ hWF rfl rfl
  exact ⟨hWF, by decide, h.1 (by decide)⟩

/-- C7: `advance(num_frames)` issues the engine run primitive with exactly
the requested frame count and freshly allocated all-zero input and output
buffers of the default sizes, so its engine-visible effect (frame count
and buffer contents) equals that of `run(num_frames)` with default
arguments, and it returns no buffer. -/
theorem Chuck.advance_refines_run (s : ChuckState) (n : Nat) :
    (Chuck.advance s n).1 = none ∧
    (Chuck.advance s n).2.1.numFrames = n ∧
    (Chuck.advance s n).2.1.input.data = npZeros (n * s.inChannels) ∧
    (Chuck.advance s n).2.1.output.data = npZeros (n * s.outChannels) ∧
    (Chuck.advance s n).2.1.input.id = s.nextId ∧
    (Chuck.advance s n).2.1.output.id = s.nextId + 1 ∧
    (Chuck.advance s n).2.1.numFrames =
      (Chuck.run s n none none false).call.numFrames ∧
    (Chuck.advance s n).2.1.input.data =
      (Chuck.run s n none none false).call.input.data ∧
    (Chuck.advance s n).2.1.output.data =
      (Chuck.run s n none none false).call.output.data := by
  rw [run_default_eq]
  exact ⟨rfl, rfl, rfl, rfl, rfl, rfl, rfl, rfl, rfl⟩

theorem Buffer.ne_of_id_ne {a b : Buffer} (h : a.id ≠ b.id) : a ≠ b :=
  fun he => h (congrArg Buffer.id he)

/-- C5: two consecutive `run(n, reuse=true)` calls with no caller buffers
return the identical buffer object both times; a third call
`run(m, reuse=true)` with `m ≠ n` returns a newly allocated buffer object
distinct from the one returned by the first two calls. -/
theorem Chuck.run_reuse_buffer_identity (s : ChuckState) (n m : Nat)
    (hWF : s.WF) (hnm : n ≠ m) :
    (Chuck.run (Chuck.run s n none none true).state n none none true).ret =
      (Chuck.run s n none none true).ret ∧
    (Chuck.run (Chuck.run (Chuck.run s n none none true).state
        n none none true).state m none none true).ret ≠
      (Chuck.run s n none none true).ret := by
  by_cases hm : s.reuseNumFrames ≠ n ∨ s.reuseOutput = none
  · have h1 := run_reuse_miss s n hm
    rw [h1]
    dsimp only
    have h2 := run_reuse_hit
      { s with reuseOutput := some (Chuck.reallocOutput s n),
               reuseInput := some (Chuck.reallocInput s n),
               reuseNumFrames := n, nextId := s.nextId + 2 } n
      (Chuck.reallocOutput s n) (Chuck.reallocInput s n) rfl rfl rfl
    rw [h2]
    dsimp only
    have h3 := run_reuse_miss
      { s with reuseOutput := some (Chuck.reallocOutput s n),
               reuseInput := some (Chuck.reallocInput s n),
               reuseNumFrames := n, nextId := s.nextId + 2 } m
      (Or.inl (by exact hnm))
    rw [h3]
    dsimp only
    refine ⟨rfl, Buffer.ne_of_id_ne ?_⟩
    simp [Chuck.reallocOutput]
  · push_neg at hm
    obtain ⟨hfr, hso⟩ := hm
    obtain ⟨ob, hob⟩ := Option.ne_none_iff_exists'.mp hso
    cases hri : s.reuseInput with
    | some ib =>
      have h1 := run_reuse_hit s n ob ib hob hri hfr
      rw [h1]
      dsimp only
      rw [h1]
      dsimp only
      have h3 := run_reuse_miss s m (Or.inl (by rw [hfr]; exact hnm))
      rw [h3]
      dsimp only
      refine ⟨rfl, Buffer.ne_of_id_ne ?_⟩
      have hlt := hWF.1 ob hob
      simp only [Chuck.reallocOutput]
      omega
    | none =>
      have h1 := run_reuse_hit_noinput s n ob hob hri hfr
      rw [h1]
      dsimp only
      have h2 := run_reuse_hit_noinput { s with nextId := s.nextId + 1 } n
        ob (by exact hob) (by exact hri) (by exact hfr)
      rw [h2]
      dsimp only
      have h3 := run_reuse_miss
        { s with nextId := s.nextId + 1 + 1 } m
        (Or.inl (by show s.reuseNumFrames ≠ m; rw [hfr]; exact hnm))
      rw [h3]
      dsimp only
      refine ⟨rfl, Buffer.ne_of_id_ne ?_⟩
      have hlt := hWF.1 ob hob
      simp only [Chuck.reallocOutput]
      omega

theorem Chuck.run_reuse_buffer_identity_witness :
    (ChuckState.fresh 2 2).WF ∧ (3 : Nat) ≠ 5 ∧
    (Chuck.run (Chuck.run (ChuckState.fresh 2 2) 3 none none true).state
        3 none none true).ret =
      (Chuck.run (ChuckState.fresh 2 2) 3 none none true).ret ∧
    (Chuck.run (Chuck.run (Chuck.run (ChuckState.fresh 2 2)
        3 none none true).state 3 none none true).state
        5 none none true).ret ≠
      (Chuck.run (ChuckState.fresh 2 2) 3 none none true).ret := by
  have hWF : (ChuckState.fresh 2 2).WF :=
    ⟨(fun b hb => by cases hb), (fun b hb => by cases hb)⟩
  have h := Chuck.run_reuse_buffer_identity (ChuckState.fresh 2 2) 3 5 hWF
    (by decide)
  exact ⟨hWF, by decide, h.1, h.2⟩

/-- C6 (code bug): at the failing input below, the engine run primitive
receives the stale reuse input buffer — object id 1, length
6 = 3 * input_channels, left over from the earlier 3-frame reuse call —
instead of an all-zero silence buffer of length
10 = num_frames * input_channels, because the input-selection branch of
`Chuck.run` checks only that `reuse` is set and a reuse input buffer
exists, not that its size matches the request (api.py lines 234-235). -/
theorem Chuck.run_stale_reuse_input_bug :
    (Chuck.run (Chuck.run (ChuckState.fresh 2 2) 3 none none true).state
        5 (some ⟨100, npZeros 10⟩) none true).call.input =
      ⟨1, npZeros 6⟩ ∧
    (Chuck.run (Chuck.run (ChuckState.fresh 2 2) 3 none none true).state
        5 (some ⟨100, npZeros 10⟩) none true).call.input.data.length = 6 ∧
    (6 : Nat) ≠ 5 * 2 := by
  refine ⟨by decide, by decide, by decide⟩

theorem Chuck.run_preserves_inv (s : ChuckState) (n : Nat)
    (o i : Option Buffer) (r : Bool) (h : s.Inv) :
    (Chuck.run s n o i r).state.Inv ∧
    (Chuck.run s n o i r).state.inChannels = s.inChannels ∧
    (Chuck.run s n o i r).state.outChannels = s.outChannels := by
  have hT : (Chuck.selectOutput s n o r).2.Inv ∧
      (Chuck.selectOutput s n o r).2.inChannels = s.inChannels ∧
      (Chuck.selectOutput s n o r).2.outChannels = s.outChannels ∧
      (Chuck.selectOutput s n o r).2.reuseNumFrames =
        (Chuck.selectOutput s n o r).2.reuseNumFrames := by
    rcases selectOutput_cases s n o r with
      ⟨b, _, heq⟩ | ⟨_, heq⟩ | ⟨_, ob, _, _, heq⟩ | ⟨_, heq⟩ <;> rw [heq]
    · exact ⟨h, rfl, rfl, rfl⟩
    · exact ⟨h, rfl, rfl, rfl⟩
    · exact ⟨h, rfl, rfl, rfl⟩
    · refine ⟨Or.inr ⟨Chuck.reallocOutput s n, Chuck.reallocInput s n,
        rfl, rfl, ?_, ?_⟩, rfl, rfl, rfl⟩
      · simp [Chuck.reallocOutput, npZeros]
      · simp [Chuck.reallocInput, npZeros]
  have hrun : (Chuck.run s n o i r).state =
      (Chuck.selectInput (Chuck.selectOutput s n o r).2 n i r).2 := rfl
  rw [hrun]
  rcases selectInput_state (Chuck.selectOutput s n o r).2 n i r with
    hst | hst <;> rw [hst]
  · exact ⟨hT.1, hT.2.1, hT.2.2.1⟩
  · exact ⟨hT.1, hT.2.1, hT.2.2.1⟩

/-- C9: every bridge operation preserves the buffer-pair invariant — the
reusable output and input buffers are both unallocated with frame tag 0,
or both allocated with lengths `_reuse_num_frames` times the output and
input channel counts — and leaves the channel counts (fixed at
initialization) unchanged. -/
theorem ApiOp.step_preserves_inv (s : ChuckState) (op : ApiOp)
    (h : s.Inv) :
    (op.step s).2.Inv ∧
    (op.step s).2.inChannels = s.inChannels ∧
    (op.step s).2.outChannels = s.outChannels := by
  cases op with
  | runOp n o i r => exact Chuck.run_preserves_inv s n o i r h
  | advanceOp n => exact ⟨h, rfl, rfl⟩
  | getIntOp name rf => exact Chuck.run_preserves_inv s rf none none false h
  | getFloatOp name rf => exact Chuck.run_preserves_inv s rf none none false h
  | getStringOp name rf => exact Chuck.run_preserves_inv s rf none none false h
  | setIntOp name v => exact ⟨h, rfl, rfl⟩
  | setFloatOp name => exact ⟨h, rfl, rfl⟩
  | setStringOp name v => exact ⟨h, rfl, rfl⟩
  | getIntAsyncOp name => exact ⟨h, rfl, rfl⟩
  | getFloatAsyncOp name => exact ⟨h, rfl, rfl⟩
  | getStringAsyncOp name => exact ⟨h, rfl, rfl⟩
  | signalEventOp name => exact ⟨h, rfl, rfl⟩
  | broadcastEventOp name => exact ⟨h, rfl, rfl⟩
  | onEventOp name forever => exact ⟨h, rfl, rfl⟩
  | stopListeningOp name cid => exact ⟨h, rfl, rfl⟩
  | compileOp code args count imm => exact ⟨h, rfl, rfl⟩
  | removeShredOp sid => exact ⟨h, rfl, rfl⟩
  | replaceShredOp sid code args => exact ⟨h, rfl, rfl⟩
  | clearOp => exact ⟨h, rfl, rfl⟩
  | resetIdOp => exact ⟨h, rfl, rfl⟩

theorem ApiOp.step_preserves_inv_witness :
    (ChuckState.fresh 2 2).Inv ∧
    ((ApiOp.runOp 3 none none true).step (ChuckState.fresh 2 2)).2.Inv := by
  have hInv : (ChuckState.fresh 2 2).Inv := Or.inl ⟨rfl, rfl, rfl⟩
  exact ⟨hInv, (ApiOp.step_preserves_inv (ChuckState.fresh 2 2)
    (ApiOp.runOp 3 none none true) hInv).1⟩

/-- C2: any caller-supplied output or input buffer whose length differs
from `num_frames` times the corresponding channel count makes the call
fail with an InvalidArgument condition in the binding layer's defensive
length check, before the engine core is entered. -/
theorem Chuck.runChecked_invalid_on_mismatch (s : ChuckState) (n : Nat)
    (outputArg inputArg : Option Buffer) (reuse : Bool) :
    (∀ b, outputArg = some b → b.data.length ≠ n * s.outChannels →
      Chuck.runChecked s n outputArg inputArg reuse =
        .invalidArgument) ∧
    (∀ b, inputArg = some b → b.data.length ≠ n * s.inChannels →
      Chuck.runChecked s n outputArg inputArg reuse =
        .invalidArgument) := by
  constructor
  · rintro b rfl hlen
    have hcond : ((Chuck.run s n (some b) inputArg reuse).call.input.data.length !=
        (Chuck.run s n (some b) inputArg reuse).call.numFrames * s.inChannels ||
        (Chuck.run s n (some b) inputArg reuse).call.output.data.length !=
        (Chuck.run s n (some b) inputArg reuse).call.numFrames * s.outChannels) =
        true := by
      rw [Bool.or_eq_true]
      right
      rw [bne_iff_ne]
      exact hlen
    simp [Chuck.runChecked, bindingRun, hcond]
  · rintro b rfl hlen
    have hcond : ((Chuck.run s n outputArg (some b) reuse).call.input.data.length !=
        (Chuck.run s n outputArg (some b) reuse).call.numFrames * s.inChannels ||
        (Chuck.run s n outputArg (some b) reuse).call.output.data.length !=
        (Chuck.run s n outputArg (some b) reuse).call.numFrames * s.outChannels) =
        true := by
      rw [Bool.or_eq_true]
      left
      rw [bne_iff_ne]
      exact hlen
    simp [Chuck.runChecked, bindingRun, hcond]

theorem Chuck.runChecked_invalid_on_mismatch_witness :
    (Buffer.mk 0 (npZeros 5)).data.length ≠
      3 * (ChuckState.fresh 2 2).outChannels ∧
    Chuck.runChecked (ChuckState.fresh 2 2) 3 (some ⟨0, npZeros 5⟩)
      none false = .invalidArgument := by
  have h := (Chuck.runChecked_invalid_on_mismatch (ChuckState.fresh 2 2) 3
    (some ⟨0, npZeros 5⟩) none false).1 ⟨0, npZeros 5⟩ rfl (by decide)
  exact ⟨by decide, h⟩

theorem containsStr_intro (hay mid : String) (p q : List Char)
    (h : p ++ mid.data ++ q = hay.data) : containsStr hay mid :=
  ⟨p, q, h⟩

/-- C3 (counterexample): pychuck's `get_int("x", run_frames=256)` with the
callback never invoked fails with the message
"Failed to get global int 'x'": the variable is named, but the frame
budget `256` appears nowhere in the report, contrary to the claim that
the report names both the variable and the frame budget used. -/
theorem Pychuck.getInt_timeout_omits_budget :
    (Pychuck.getInt ⟨2, 2, 0⟩ "x" 256 none).1 =
      .error (pychuckGetIntTimeoutMsg "x") ∧
    containsStr (pychuckGetIntTimeoutMsg "x") "x" ∧
    ¬ containsStr (pychuckGetIntTimeoutMsg "x") (toString (256 : Nat)) := by
  refine ⟨rfl, by decide, by decide⟩

/-- C3 (amended): each blocking scalar getter registers a one-shot
callback, drives exactly `run_frames` frames through a single internal
`run` call (so exactly one engine run primitive invocation — no automatic
retry), and returns the value the callback delivered, or — if the
callback was never invoked — fails with a timeout report; the numchuck
getters' report names both the variable and the frame budget used, while
the pychuck getter's report names only the variable. -/
theorem getScalar_timeout_protocol (s : ChuckState) (ps : PychuckState)
    (name : String) (runFrames : Nat) (d : Option Int) :
    (Chuck.getInt s name runFrames d).2.1 =
      [.getGlobalInt name,
       .runPrimitive (Chuck.run s runFrames none none false).call.input
         (Chuck.run s runFrames none none false).call.output runFrames] ∧
    ((Chuck.getInt s name runFrames d).2.1.filter
      EngineCall.isRunPrimitive).length = 1 ∧
    (∀ v, d = some v → (Chuck.getInt s name runFrames d).1 = .ok v) ∧
    (d = none →
      (Chuck.getInt s name runFrames d).1 =
        .error (getIntTimeoutMsg name runFrames)) ∧
    containsStr (getIntTimeoutMsg name runFrames) name ∧
    containsStr (getIntTimeoutMsg name runFrames) (toString runFrames) ∧
    containsStr (getFloatTimeoutMsg name runFrames) name ∧
    containsStr (getFloatTimeoutMsg name runFrames) (toString runFrames) ∧
    containsStr (getStringTimeoutMsg name runFrames) name ∧
    containsStr (getStringTimeoutMsg name runFrames) (toString runFrames) ∧
    (Pychuck.getInt ps name runFrames d).2.1 =
      [.getGlobalInt name,
       .runPrimitive (Pychuck.run ps runFrames).call.input
         (Pychuck.run ps runFrames).call.output runFrames] ∧
    (∀ v, d = some v → (Pychuck.getInt ps name runFrames d).1 = .ok v) ∧
    (d = none →
      (Pychuck.getInt ps name runFrames d).1 =
        .error (pychuckGetIntTimeoutMsg name)) ∧
    containsStr (pychuckGetIntTimeoutMsg name) name := by
  refine ⟨rfl, ?_, ?_, ?_, ?_, ?_, ?_, ?_, ?_, ?_, rfl, ?_, ?_, ?_⟩
  · cases d <;> rfl
  · rintro v rfl
    rfl
  · rintro rfl
    rfl
  · exact containsStr_intro _ _ ("Failed to get global int ").data
      (" - callback not invoked. Try increasing run_frames (currently " ++
        toString runFrames ++ ").").data
      (by simp [getIntTimeoutMsg, String.data_append])
  · exact containsStr_intro _ _
      ("Failed to get global int " ++ name ++
        " - callback not invoked. Try increasing run_frames (currently ").data
      (").").data
      (by simp [getIntTimeoutMsg, String.data_append])
  · exact containsStr_intro _ _ ("Failed to get global float ").data
      (" - callback not invoked. Try increasing run_frames (currently " ++
        toString runFrames ++ ").").data
      (by simp [getFloatTimeoutMsg, String.data_append])
  · exact containsStr_intro _ _
      ("Failed to get global float " ++ name ++
        " - callback not invoked. Try increasing run_frames (currently ").data
      (").").data
      (by simp [getFloatTimeoutMsg, String.data_append])
  · exact containsStr_intro _ _ ("Failed to get global string ").data
      (" - callback not invoked. Try increasing run_frames (currently " ++
        toString runFrames ++ ").").data
      (by simp [getStringTimeoutMsg, String.data_append])
  · exact containsStr_intro _ _
      ("Failed to get global string " ++ name ++
        " - callback not invoked. Try increasing run_frames (currently ").data
      (").").data
      (by simp [getStringTimeoutMsg, String.data_append])
  · rintro v rfl
    rfl
  · rintro rfl
    rfl
  · exact containsStr_intro _ _ ("Failed to get global int ").data []
      (by simp [pychuckGetIntTimeoutMsg, String.data_append])

theorem getScalar_timeout_protocol_witness :
    (Chuck.getInt (ChuckState.fresh 2 2) "x" 8 (some 42)).1 = .ok 42 ∧
    (Pychuck.getInt ⟨2, 2, 0⟩ "x" 8 none).1 =
      .error (pychuckGetIntTimeoutMsg "x") := by
  have h := getScalar_timeout_protocol (ChuckState.fresh 2 2) ⟨2, 2, 0⟩
    "x" 8 (some 42)
  have h' := getScalar_timeout_protocol (ChuckState.fresh 2 2) ⟨2, 2, 0⟩
    "x" 8 none
  exact ⟨h.2.2.1 42 rfl, h'.2.2.2.2.2.2.2.2.2.2.2.2.1 rfl⟩

/-- C8: the asynchronous registration operations emit exactly one
registration call on the engine — never the run primitive, never a
callback invocation — and leave the bridge state unchanged; across all
bridge operations, the engine run primitive (the only primitive that
advances engine virtual time, and the only point where the engine can
resolve a pending callback) appears in an operation's trace exactly when
that operation's body invokes the render loop (`run`, `advance`, or a
blocking getter that calls `self.run`), and no bridge operation ever
invokes a registered callback itself. -/
theorem ApiOp.async_registration_only (s : ChuckState) (name : String)
    (forever : Bool) (op : ApiOp) :
    ((ApiOp.getIntAsyncOp name).step s).1 = [.getGlobalInt name] ∧
    ((ApiOp.getFloatAsyncOp name).step s).1 = [.getGlobalFloat name] ∧
    ((ApiOp.getStringAsyncOp name).step s).1 = [.getGlobalString name] ∧
    ((ApiOp.onEventOp name forever).step s).1 =
      [.listenForGlobalEvent name forever] ∧
    ((ApiOp.getIntAsyncOp name).step s).2 = s ∧
    ((ApiOp.getFloatAsyncOp name).step s).2 = s ∧
    ((ApiOp.getStringAsyncOp name).step s).2 = s ∧
    ((ApiOp.onEventOp name forever).step s).2 = s ∧
    ((op.step s).1.any EngineCall.isRunPrimitive) = op.drivesFrames ∧
    ((op.step s).1.any EngineCall.isCallbackInvocation) = false := by
  refine ⟨rfl, rfl, rfl, rfl, rfl, rfl, rfl, rfl, ?_, ?_⟩
  · cases op <;> rfl
  · cases op <;> rfl

/-- C10: the constructor stages exactly the thirteen listed parameters
unconditionally (in source order), stages `working_directory` and
`user_chugins` only when they are non-empty, and calls `init()` exactly
once when `auto_init` is true and never when it is false. -/
theorem ctorCalls_shape (a : CtorArgs) :
    (ctorCalls a).filterMap EngineCall.intParamKey = unconditionalKeys ∧
    unconditionalKeys.length = 13 ∧
    ((ctorCalls a).any EngineCall.isSetParamStr =
      !a.workingDirectory.isEmpty) ∧
    ((ctorCalls a).any EngineCall.isSetParamStrList =
      !a.userChugins.isEmpty) ∧
    (((ctorCalls a).filter EngineCall.isInitCall).length =
      if a.autoInit then 1 else 0) := by
  by_cases h1 : a.workingDirectory.isEmpty <;>
    by_cases h2 : a.userChugins.isEmpty <;>
      by_cases h3 : a.autoInit <;>
        simp [ctorCalls, h1, h2, h3, unconditionalKeys,
          EngineCall.intParamKey, EngineCall.isSetParamStr,
          EngineCall.isSetParamStrList, EngineCall.isInitCall]

end Numchuck
